import Mathlib

/-!
Shallow embedding of the projection engine of `src/src/components/AdSimulator.tsx`
(a browser-based advertising financial projection calculator), together with
proofs of its specified laws.

Numbers are modelled as rationals (ℚ): the source performs exact-looking
arithmetic (products, guarded divisions, comparisons) on JavaScript numbers,
and the specification states the formulas ideally.

The two entry points embedded here:
 * `AdSimulator.calculate` — the single-period calculator (lines 88-136);
 * `AdSimulator.calculateCompoundEffect` — the compound projection loop
   (lines 142-205), with its unused `monthlyProfit` parameter retained.
-/

namespace AdSimulator

/-- `CompoundDataItem` of AdSimulator.tsx: one row of the compound-effect table. -/
structure CompoundDataItem where
  month : ℕ
  adCost : ℚ
  revenue : ℚ
  profit : ℚ
  cumulativeAdCost : ℚ
  cumulativeRevenue : ℚ
  cumulativeProfit : ℚ
  deriving Repr, DecidableEq

/--`InputValues` of AdSimulator.tsx: the immutable input snapshot. -/
structure InputValues where
  adCost : ℚ
  productPrice : ℚ
  roas : ℚ
  conversionRate : ℚ
  profitMargin : ℚ
  affiliateCommission : ℚ
  seatCpa : ℚ
  appointments : ℚ
  operationDays : ℚ
  months : ℚ
  firstMonthFree : Bool
  deriving Repr, DecidableEq

/-- `ResultValues` of AdSimulator.tsx: the single-period result snapshot. -/
structure ResultValues where
  revenue : ℚ
  profit : ℚ
  profitBeforeAdCost : ℚ
  numberOfSales : ℚ
  cpa : ℚ
  roasActual : ℚ
  seatCount : ℚ
  dailyCost : ℚ
  affiliateAmount : ℚ
  profitAmount : ℚ
  deriving Repr, DecidableEq

/-- The initial `useState` values of AdSimulator.tsx (lines 46-58). -/
def defaultInputs : InputValues where
  adCost := 500000
  productPrice := 600000
  roas := 300
  conversionRate := 20
  profitMargin := 60
  affiliateCommission := 20
  seatCpa := 60000
  appointments := 8
  operationDays := 30
  months := 12
  firstMonthFree := true

/-- The default inputs with every guarded denominator (and the ad cost)
degenerate at 0, exercising the saturating-division branches. -/
def degenerateInputs : InputValues :=
  { defaultInputs with adCost := 0, productPrice := 0, seatCpa := 0, operationDays := 0 }

/-- `calculate` of AdSimulator.tsx (lines 88-136): the single-period
calculator, a direct transcription of the source's sequence of let-bindings
and guarded divisions. -/
def calculate (inputs : InputValues) : ResultValues :=
  let revenue := inputs.adCost * inputs.roas / 100
  let numberOfSales := if inputs.productPrice > 0 then revenue / inputs.productPrice else 0
  let cpa := if numberOfSales > 0 then inputs.adCost / numberOfSales else 0
  let profitAmount := revenue * inputs.profitMargin / 100
  let affiliateAmount := profitAmount * inputs.affiliateCommission / 100
  let profitBeforeAdCost := profitAmount - affiliateAmount
  let profit := if inputs.firstMonthFree = true then profitBeforeAdCost
    else profitBeforeAdCost - inputs.adCost
  let roasActual := if inputs.adCost > 0 then revenue / inputs.adCost * 100 else 0
  let seatCount := if inputs.seatCpa > 0 then inputs.adCost / inputs.seatCpa else 0
  let dailyCost := if inputs.operationDays > 0 then inputs.adCost / inputs.operationDays else 0
  { revenue := revenue
    profit := profit
    profitBeforeAdCost := profitBeforeAdCost
    numberOfSales := numberOfSales
    cpa := cpa
    roasActual := roasActual
    seatCount := seatCount
    dailyCost := dailyCost
    affiliateAmount := affiliateAmount
    profitAmount := profitAmount }

/-- The mutable accumulators of the projection loop of
`calculateCompoundEffect` (lines 144-147). -/
structure LoopState where
  cumulativeAdCost : ℚ
  cumulativeRevenue : ℚ
  cumulativeProfit : ℚ
  currentAdCost : ℚ
  deriving Repr, DecidableEq

/-- The accumulators as they stand when the loop is entered (lines 144-147):
cumulatives at 0, `currentAdCost` at `inputs.adCost`. -/
def initState (inputs : InputValues) : LoopState where
  cumulativeAdCost := 0
  cumulativeRevenue := 0
  cumulativeProfit := 0
  currentAdCost := inputs.adCost

/-- One iteration of the projection loop body (lines 150-201): given the
month index and the accumulator state, produce the emitted row and the
updated state.  Month 0 emits the sentinel row and leaves the state
untouched (the `continue` branch); a later month computes the monthly
figures, updates the cumulatives (skipping ad-cost accrual exactly when
`month == 1 && firstMonthFree`), emits the row, and applies the
reinvestment rule to `currentAdCost`. -/
def stepMonth (inputs : InputValues) (month : ℕ) (s : LoopState) :
    CompoundDataItem × LoopState :=
  match month with
  | 0 =>
    ({ month := 0
       adCost := s.currentAdCost
       revenue := 0
       profit := 0
       cumulativeAdCost := s.cumulativeAdCost
       cumulativeRevenue := 0
       cumulativeProfit := 0 }, s)
  | m + 1 =>
    let month := m + 1
    let monthlyRevenue := s.currentAdCost * inputs.roas / 100
    let profitAmount := monthlyRevenue * (inputs.profitMargin / 100)
    let affiliateAmount := profitAmount * (inputs.affiliateCommission / 100)
    let monthlyProfitBeforeAdCost := profitAmount - affiliateAmount
    let netProfit := if month = 1 ∧ inputs.firstMonthFree = true
      then monthlyProfitBeforeAdCost
      else monthlyProfitBeforeAdCost - s.currentAdCost
    let cumulativeAdCost := if ¬(month = 1 ∧ inputs.firstMonthFree = true)
      then s.cumulativeAdCost + s.currentAdCost
      else s.cumulativeAdCost
    let cumulativeRevenue := s.cumulativeRevenue + monthlyRevenue
    let cumulativeProfit := s.cumulativeProfit + netProfit
    let currentAdCost := if monthlyProfitBeforeAdCost > 0
      then monthlyProfitBeforeAdCost
      else inputs.adCost
    ({ month := month
       adCost := s.currentAdCost
       revenue := monthlyRevenue
       profit := monthlyProfitBeforeAdCost
       cumulativeAdCost := cumulativeAdCost
       cumulativeRevenue := cumulativeRevenue
       cumulativeProfit := cumulativeProfit },
     { cumulativeAdCost := cumulativeAdCost
       cumulativeRevenue := cumulativeRevenue
       cumulativeProfit := cumulativeProfit
       currentAdCost := currentAdCost })

/-- Number of iterations of the JavaScript loop
`for (let month = 0; month <= inputs.months; month++)`: the loop executes
for the integer indices `0, 1, …` not exceeding `months`, i.e. it runs
`⌊months⌋ + 1` times when `months ≥ 0` and not at all otherwise. -/
def loopCount (months : ℚ) : ℕ :=
  if 0 ≤ months then (⌊months⌋).toNat + 1 else 0

/-- Running the loop for `k` further iterations starting at index `month`
with state `s`, collecting the emitted rows. -/
def projectAux (inputs : InputValues) : ℕ → ℕ → LoopState → List CompoundDataItem
  | 0, _, _ => []
  | k + 1, month, s =>
    (stepMonth inputs month s).1 ::
      projectAux inputs k (month + 1) (stepMonth inputs month s).2

/-- `calculateCompoundEffect` of AdSimulator.tsx (lines 142-205).  Its
`monthlyProfit` parameter is retained from the source, where it is declared
but never read by the loop body. -/
def calculateCompoundEffect (inputs : InputValues) (monthlyProfit : ℚ) :
    List CompoundDataItem :=
  projectAux inputs (loopCount inputs.months) 0 (initState inputs)

/-- The projection as invoked by `calculate` (line 135): the net profit of
the single-period result is passed in as the (unused) argument. -/
def project (inputs : InputValues) : List CompoundDataItem :=
  calculateCompoundEffect inputs (calculate inputs).profit

/-- The accumulator state after the loop has processed months `0 … m`. -/
def stateAfter (inputs : InputValues) : ℕ → LoopState
  | 0 => initState inputs
  | m + 1 => (stepMonth inputs (m + 1) (stateAfter inputs m)).2

/-- The row emitted for month `m` by the loop. -/
def rowAt (inputs : InputValues) : ℕ → CompoundDataItem
  | 0 => (stepMonth inputs 0 (initState inputs)).1
  | m + 1 => (stepMonth inputs (m + 1) (stateAfter inputs m)).1

/-! ### Structural lemmas about the projection loop -/

theorem projectAux_length (inputs : InputValues) :
    ∀ (k month : ℕ) (s : LoopState), (projectAux inputs k month s).length = k
  | 0, _, _ => rfl
  | k + 1, month, s => by
    simp [projectAux, projectAux_length inputs k]

theorem project_length (inputs : InputValues) :
    (project inputs).length = loopCount inputs.months :=
  projectAux_length inputs _ 0 _

/-- The iteration count is faithful to the JavaScript loop header
`for (let month = 0; month <= inputs.months; month++)`: the loop body runs
for exactly those integer indices `m` with `m ≤ months`. -/
theorem lt_loopCount_iff (months : ℚ) (m : ℕ) :
    m < loopCount months ↔ (m : ℚ) ≤ months := by
  unfold loopCount
  split_ifs with h0
  · have hfl : (0 : ℤ) ≤ ⌊months⌋ := Int.le_floor.mpr (by exact_mod_cast h0)
    constructor
    · intro hm
      have h1 : (m : ℤ) ≤ ⌊months⌋ := by omega
      exact_mod_cast Int.le_floor.mp h1
    · intro hm
      have h1 : ((m : ℤ) : ℚ) ≤ months := by exact_mod_cast hm
      have h2 := Int.le_floor.mpr h1
      omega
  · constructor
    · omega
    · intro hm
      exact absurd (le_trans (by positivity) hm) h0

theorem loopCount_natCast (n : ℕ) : loopCount (n : ℚ) = n + 1 := by
  unfold loopCount
  rw [if_pos (by positivity), Int.floor_natCast]
  omega

theorem projectAux_get?_stateAfter (inputs : InputValues) :
    ∀ (i k m : ℕ), i < k →
      (projectAux inputs k (m + 1) (stateAfter inputs m)).get? i =
        some (rowAt inputs (m + 1 + i))
  | 0, k + 1, m, _ => rfl
  | i + 1, k + 1, m, h => by
    have ih := projectAux_get?_stateAfter inputs i k (m + 1) (Nat.lt_of_succ_lt_succ h)
    have hstep : (stepMonth inputs (m + 1) (stateAfter inputs m)).2 =
        stateAfter inputs (m + 1) := rfl
    show (projectAux inputs k (m + 1 + 1)
        (stepMonth inputs (m + 1) (stateAfter inputs m)).2).get? i =
      some (rowAt inputs (m + 1 + (i + 1)))
    rw [hstep, show m + 1 + (i + 1) = m + 1 + 1 + i by omega]
    exact ih

theorem project_get? (inputs : InputValues) (m : ℕ)
    (h : m < loopCount inputs.months) :
    (project inputs).get? m = some (rowAt inputs m) := by
  unfold project calculateCompoundEffect
  rcases hN : loopCount inputs.months with _ | N
  · rw [hN] at h
    exact absurd h (Nat.not_lt_zero m)
  · rw [hN] at h
    rcases m with _ | i
    · rfl
    · have h2 : i < N := Nat.lt_of_succ_lt_succ h
      have hred : (projectAux inputs (N + 1) 0 (initState inputs)).get? (i + 1) =
          (projectAux inputs N (0 + 1) (stateAfter inputs 0)).get? i := rfl
      rw [hred, projectAux_get?_stateAfter inputs i N 0 h2,
        show 0 + 1 + i = i + 1 by omega]

/-- A row at a defined index of the projection is the row the loop emitted
for that month. -/
theorem project_get?_eq_some (inputs : InputValues) (m : ℕ)
    (row : CompoundDataItem) (h : (project inputs).get? m = some row) :
    row = rowAt inputs m := by
  have hm : m < (project inputs).length := by
    rcases List.get?_eq_some.mp h with ⟨hlt, _⟩
    exact hlt
  rw [project_length] at hm
  have := project_get? inputs m hm
  rw [this] at h
  exact (Option.some_inj.mp h).symm

/-! ### Field-level description of the emitted rows (definitional) -/

theorem rowAt_zero (inputs : InputValues) :
    rowAt inputs 0 = ⟨0, inputs.adCost, 0, 0, 0, 0, 0⟩ := rfl

theorem rowAt_succ_month (inputs : InputValues) (m : ℕ) :
    (rowAt inputs (m + 1)).month = m + 1 := rfl

theorem rowAt_succ_adCost (inputs : InputValues) (m : ℕ) :
    (rowAt inputs (m + 1)).adCost = (stateAfter inputs m).currentAdCost := rfl

theorem rowAt_succ_revenue (inputs : InputValues) (m : ℕ) :
    (rowAt inputs (m + 1)).revenue =
      (stateAfter inputs m).currentAdCost * inputs.roas / 100 := rfl

theorem rowAt_succ_profit (inputs : InputValues) (m : ℕ) :
    (rowAt inputs (m + 1)).profit =
      (stateAfter inputs m).currentAdCost * inputs.roas / 100 *
          (inputs.profitMargin / 100) -
        (stateAfter inputs m).currentAdCost * inputs.roas / 100 *
            (inputs.profitMargin / 100) * (inputs.affiliateCommission / 100) := rfl

theorem rowAt_succ_cumulativeAdCost (inputs : InputValues) (m : ℕ) :
    (rowAt inputs (m + 1)).cumulativeAdCost =
      (stateAfter inputs (m + 1)).cumulativeAdCost := rfl

theorem rowAt_succ_cumulativeRevenue (inputs : InputValues) (m : ℕ) :
    (rowAt inputs (m + 1)).cumulativeRevenue =
      (stateAfter inputs (m + 1)).cumulativeRevenue := rfl

theorem rowAt_succ_cumulativeProfit (inputs : InputValues) (m : ℕ) :
    (rowAt inputs (m + 1)).cumulativeProfit =
      (stateAfter inputs (m + 1)).cumulativeProfit := rfl

theorem stateAfter_zero (inputs : InputValues) :
    stateAfter inputs 0 = initState inputs := rfl

theorem stateAfter_succ_currentAdCost (inputs : InputValues) (m : ℕ) :
    (stateAfter inputs (m + 1)).currentAdCost =
      if (rowAt inputs (m + 1)).profit > 0 then (rowAt inputs (m + 1)).profit
      else inputs.adCost := rfl

theorem stateAfter_succ_cumulativeAdCost (inputs : InputValues) (m : ℕ) :
    (stateAfter inputs (m + 1)).cumulativeAdCost =
      if ¬(m + 1 = 1 ∧ inputs.firstMonthFree = true) then
        (stateAfter inputs m).cumulativeAdCost + (stateAfter inputs m).currentAdCost
      else (stateAfter inputs m).cumulativeAdCost := rfl

theorem stateAfter_succ_cumulativeRevenue (inputs : InputValues) (m : ℕ) :
    (stateAfter inputs (m + 1)).cumulativeRevenue =
      (stateAfter inputs m).cumulativeRevenue + (rowAt inputs (m + 1)).revenue := rfl

theorem stateAfter_succ_cumulativeProfit (inputs : InputValues) (m : ℕ) :
    (stateAfter inputs (m + 1)).cumulativeProfit =
      (stateAfter inputs m).cumulativeProfit +
        (if m + 1 = 1 ∧ inputs.firstMonthFree = true then (rowAt inputs (m + 1)).profit
         else (rowAt inputs (m + 1)).profit - (stateAfter inputs m).currentAdCost) := rfl

/-! ### The cumulative-consistency invariant of the loop state -/

theorem stateAfter_cumulative_consistency (inputs : InputValues) :
    ∀ m : ℕ, (stateAfter inputs m).cumulativeProfit =
      (stateAfter inputs m).cumulativeRevenue * (inputs.profitMargin / 100) *
          (1 - inputs.affiliateCommission / 100) -
        (stateAfter inputs m).cumulativeAdCost
  | 0 => by
    show (0 : ℚ) = 0 * (inputs.profitMargin / 100) *
      (1 - inputs.affiliateCommission / 100) - 0
    ring
  | m + 1 => by
    have ih := stateAfter_cumulative_consistency inputs m
    rw [stateAfter_succ_cumulativeProfit, stateAfter_succ_cumulativeRevenue,
      stateAfter_succ_cumulativeAdCost, rowAt_succ_profit, rowAt_succ_revenue, ih]
    split_ifs with hA <;> ring

/-! ### Concrete evaluation on the default inputs -/

theorem calculate_defaultInputs :
    calculate defaultInputs =
      ⟨1500000, 720000, 720000, 5 / 2, 200000, 300, 25 / 3, 50000 / 3,
        180000, 900000⟩ := by
  norm_num [calculate, defaultInputs, ResultValues.mk.injEq]

theorem rowAt_defaultInputs_one :
    rowAt defaultInputs 1 = ⟨1, 500000, 1500000, 720000, 0, 1500000, 720000⟩ := by
  show (stepMonth defaultInputs (0 + 1) (stateAfter defaultInputs 0)).1 = _
  norm_num [stepMonth, stateAfter, initState, defaultInputs, CompoundDataItem.mk.injEq]

theorem rowAt_defaultInputs_two :
    rowAt defaultInputs 2 =
      ⟨2, 720000, 2160000, 1036800, 720000, 3660000, 1036800⟩ := by
  show (stepMonth defaultInputs (1 + 1) (stateAfter defaultInputs 1)).1 = _
  have h1 : stateAfter defaultInputs 1 =
      { cumulativeAdCost := 0, cumulativeRevenue := 1500000,
        cumulativeProfit := 720000, currentAdCost := 720000 } := by
    show (stepMonth defaultInputs (0 + 1) (stateAfter defaultInputs 0)).2 = _
    norm_num [stepMonth, stateAfter, initState, defaultInputs, LoopState.mk.injEq]
  rw [h1]
  norm_num [stepMonth, defaultInputs, CompoundDataItem.mk.injEq]

theorem loopCount_defaultInputs : loopCount defaultInputs.months = 13 := by
  have h : defaultInputs.months = ((12 : ℕ) : ℚ) := by norm_num [defaultInputs]
  rw [h, loopCount_natCast]

theorem project_defaultInputs_one :
    (project defaultInputs).get? 1 =
      some ⟨1, 500000, 1500000, 720000, 0, 1500000, 720000⟩ := by
  rw [project_get? defaultInputs 1 (by rw [loopCount_defaultInputs]; omega),
    rowAt_defaultInputs_one]

theorem project_defaultInputs_two :
    (project defaultInputs).get? 2 =
      some ⟨2, 720000, 2160000, 1036800, 720000, 3660000, 1036800⟩ := by
  rw [project_get? defaultInputs 2 (by rw [loopCount_defaultInputs]; omega),
    rowAt_defaultInputs_two]

/-! ### Dead-field congruence lemmas (conversionRate, appointments) -/

theorem stepMonth_dead_fields (v1 v2 v3 c1 v5 v6 v7 p1 v9 v10 : ℚ) (v11 : Bool)
    (c2 p2 : ℚ) (month : ℕ) (s : LoopState) :
    stepMonth ⟨v1, v2, v3, c1, v5, v6, v7, p1, v9, v10, v11⟩ month s =
      stepMonth ⟨v1, v2, v3, c2, v5, v6, v7, p2, v9, v10, v11⟩ month s := by
  cases month <;> rfl

theorem projectAux_dead_fields (v1 v2 v3 c1 v5 v6 v7 p1 v9 v10 : ℚ) (v11 : Bool)
    (c2 p2 : ℚ) :
    ∀ (k month : ℕ) (s : LoopState),
      projectAux ⟨v1, v2, v3, c1, v5, v6, v7, p1, v9, v10, v11⟩ k month s =
        projectAux ⟨v1, v2, v3, c2, v5, v6, v7, p2, v9, v10, v11⟩ k month s
  | 0, _, _ => rfl
  | k + 1, month, s => by
    simp only [projectAux]
    rw [stepMonth_dead_fields v1 v2 v3 c1 v5 v6 v7 p1 v9 v10 v11 c2 p2 month s,
      projectAux_dead_fields v1 v2 v3 c1 v5 v6 v7 p1 v9 v10 v11 c2 p2 k (month + 1)]

/-! ### The claims -/

/-- C1: Reinvestment law: in the projection sequence, for every month index
`m` with `1 ≤ m < months`, if row `m`'s profit is positive then row `m+1`'s
ad cost equals that profit, and otherwise row `m+1`'s ad cost equals the
baseline `inputs.adCost`; in particular the reset branch never produces a
negative ad cost when the baseline ad cost is non-negative. -/
theorem C1_reinvestment_law (inputs : InputValues) (n m : ℕ)
    (hn : inputs.months = (n : ℚ)) (h1 : 1 ≤ m) (hlt : m < n) :
    ∃ rm rnext, (project inputs).get? m = some rm ∧
      (project inputs).get? (m + 1) = some rnext ∧
      (rm.profit > 0 → rnext.adCost = rm.profit) ∧
      (¬rm.profit > 0 → rnext.adCost = inputs.adCost) ∧
      (¬rm.profit > 0 → 0 ≤ inputs.adCost → 0 ≤ rnext.adCost) := by
  have hcount : loopCount inputs.months = n + 1 := by
    rw [hn]; exact loopCount_natCast n
  obtain ⟨j, rfl⟩ : ∃ j, m = j + 1 := ⟨m - 1, by omega⟩
  have key : (rowAt inputs (j + 1 + 1)).adCost =
      if (rowAt inputs (j + 1)).profit > 0 then (rowAt inputs (j + 1)).profit
      else inputs.adCost := by
    rw [rowAt_succ_adCost, stateAfter_succ_currentAdCost]
  refine ⟨rowAt inputs (j + 1), rowAt inputs (j + 1 + 1),
    project_get? inputs (j + 1) (by omega),
    project_get? inputs (j + 1 + 1) (by omega), ?_, ?_, ?_⟩
  · intro hp
    rw [key, if_pos hp]
  · intro hp
    rw [key, if_neg hp]
  · intro hp had
    rw [key, if_neg hp]
    exact had

theorem C1_reinvestment_law_witness :
    ∃ rm rnext, (project defaultInputs).get? 1 = some rm ∧
      (project defaultInputs).get? (1 + 1) = some rnext ∧
      (rm.profit > 0 → rnext.adCost = rm.profit) ∧
      (¬rm.profit > 0 → rnext.adCost = defaultInputs.adCost) ∧
      (¬rm.profit > 0 → 0 ≤ defaultInputs.adCost → 0 ≤ rnext.adCost) :=
  C1_reinvestment_law defaultInputs 12 1 (by norm_num [defaultInputs])
    (by norm_num) (by norm_num)

/-- C2: Waiver law: with `firstMonthFree = true` and `months ≥ 1`, row 1 has
`cumulativeAdCost = 0` and `cumulativeProfit` equal to its own (pre-ad-cost)
profit; and at every later month both the ad-cost accrual and the ad-cost
deduction take place (the waiver applies only at month 1). -/
theorem C2_waiver_law (inputs : InputValues) (n : ℕ)
    (hf : inputs.firstMonthFree = true) (hn : inputs.months = (n : ℚ))
    (h1 : 1 ≤ n) :
    (∃ r1, (project inputs).get? 1 = some r1 ∧ r1.cumulativeAdCost = 0 ∧
      r1.cumulativeProfit = r1.profit) ∧
    (∀ m, 1 ≤ m → m + 1 ≤ n →
      ∃ rm rnext, (project inputs).get? m = some rm ∧
        (project inputs).get? (m + 1) = some rnext ∧
        rnext.cumulativeAdCost = rm.cumulativeAdCost + rnext.adCost ∧
        rnext.cumulativeProfit = rm.cumulativeProfit +
          (rnext.profit - rnext.adCost)) := by
  have hcount : loopCount inputs.months = n + 1 := by
    rw [hn]; exact loopCount_natCast n
  constructor
  · refine ⟨rowAt inputs (0 + 1), project_get? inputs 1 (by omega), ?_, ?_⟩
    · rw [rowAt_succ_cumulativeAdCost, stateAfter_succ_cumulativeAdCost,
        if_neg (not_not_intro ⟨rfl, hf⟩), stateAfter_zero]
      rfl
    · rw [rowAt_succ_cumulativeProfit, stateAfter_succ_cumulativeProfit,
        if_pos ⟨rfl, hf⟩, stateAfter_zero]
      show (0 : ℚ) + _ = _
      rw [zero_add]
  · intro m hm1 hm2
    obtain ⟨j, rfl⟩ : ∃ j, m = j + 1 := ⟨m - 1, by omega⟩
    have hA : ¬(j + 1 + 1 = 1 ∧ inputs.firstMonthFree = true) := by
      intro hcontra
      exact absurd hcontra.1 (by omega)
    refine ⟨rowAt inputs (j + 1), rowAt inputs (j + 1 + 1),
      project_get? inputs (j + 1) (by omega),
      project_get? inputs (j + 1 + 1) (by omega), ?_, ?_⟩
    · rw [rowAt_succ_cumulativeAdCost inputs (j + 1),
        stateAfter_succ_cumulativeAdCost, if_pos hA,
        rowAt_succ_cumulativeAdCost inputs j, rowAt_succ_adCost inputs (j + 1)]
    · rw [rowAt_succ_cumulativeProfit inputs (j + 1),
        stateAfter_succ_cumulativeProfit, if_neg hA,
        rowAt_succ_cumulativeProfit inputs j, rowAt_succ_adCost inputs (j + 1)]

theorem C2_waiver_law_witness :
    (∃ r1, (project defaultInputs).get? 1 = some r1 ∧
      r1.cumulativeAdCost = 0 ∧ r1.cumulativeProfit = r1.profit) ∧
    (∀ m, 1 ≤ m → m + 1 ≤ 12 →
      ∃ rm rnext, (project defaultInputs).get? m = some rm ∧
        (project defaultInputs).get? (m + 1) = some rnext ∧
        rnext.cumulativeAdCost = rm.cumulativeAdCost + rnext.adCost ∧
        rnext.cumulativeProfit = rm.cumulativeProfit +
          (rnext.profit - rnext.adCost)) :=
  C2_waiver_law defaultInputs 12 rfl (by norm_num [defaultInputs]) (by norm_num)

/-- C3 (counterexample): on the default inputs the single-period seat count
is 500000 / 60000 = 25/3, not 2 as the claim states. -/
theorem C3_seatCount_counterexample : (calculate defaultInputs).seatCount ≠ 2 := by
  rw [calculate_defaultInputs]
  norm_num

/-- C3 (amended): the single-period calculator satisfies formulas 1-10 of
the spec for every input snapshot, and on the default inputs it returns
revenue 1500000, numberOfSales 5/2, cpa 200000, profitAmount 900000,
affiliateAmount 180000, profitBeforeAdCost 720000, profit 720000 (waived),
roasActual 300, seatCount 25/3 (≈ 8.333, not 2), dailyCost 50000/3. -/
theorem C3_single_period_formulas :
    (∀ inputs : InputValues,
      (calculate inputs).revenue = inputs.adCost * inputs.roas / 100 ∧
      (calculate inputs).numberOfSales =
        (if inputs.productPrice > 0 then
          (calculate inputs).revenue / inputs.productPrice else 0) ∧
      (calculate inputs).cpa =
        (if (calculate inputs).numberOfSales > 0 then
          inputs.adCost / (calculate inputs).numberOfSales else 0) ∧
      (calculate inputs).profitAmount =
        (calculate inputs).revenue * inputs.profitMargin / 100 ∧
      (calculate inputs).affiliateAmount =
        (calculate inputs).profitAmount * inputs.affiliateCommission / 100 ∧
      (calculate inputs).profitBeforeAdCost =
        (calculate inputs).profitAmount - (calculate inputs).affiliateAmount ∧
      (calculate inputs).profit =
        (if inputs.firstMonthFree = true then (calculate inputs).profitBeforeAdCost
         else (calculate inputs).profitBeforeAdCost - inputs.adCost) ∧
      (calculate inputs).roasActual =
        (if inputs.adCost > 0 then
          (calculate inputs).revenue / inputs.adCost * 100 else 0) ∧
      (calculate inputs).seatCount =
        (if inputs.seatCpa > 0 then inputs.adCost / inputs.seatCpa else 0) ∧
      (calculate inputs).dailyCost =
        (if inputs.operationDays > 0 then
          inputs.adCost / inputs.operationDays else 0)) ∧
    calculate defaultInputs =
      ⟨1500000, 720000, 720000, 5 / 2, 200000, 300, 25 / 3, 50000 / 3,
        180000, 900000⟩ :=
  ⟨fun _ => ⟨rfl, rfl, rfl, rfl, rfl, rfl, rfl, rfl, rfl, rfl⟩,
    calculate_defaultInputs⟩

/-- C4: Saturating division policy: whenever a guarded denominator is
non-positive, the dependent metric of the single-period calculator is
exactly 0. -/
theorem C4_saturating_division (inputs : InputValues) :
    (inputs.productPrice ≤ 0 → (calculate inputs).numberOfSales = 0) ∧
    ((calculate inputs).numberOfSales ≤ 0 → (calculate inputs).cpa = 0) ∧
    (inputs.adCost ≤ 0 → (calculate inputs).roasActual = 0) ∧
    (inputs.seatCpa ≤ 0 → (calculate inputs).seatCount = 0) ∧
    (inputs.operationDays ≤ 0 → (calculate inputs).dailyCost = 0) := by
  refine ⟨?_, ?_, ?_, ?_, ?_⟩
  · intro h
    show (if inputs.productPrice > 0 then
      inputs.adCost * inputs.roas / 100 / inputs.productPrice else 0) = 0
    rw [if_neg (not_lt.mpr h)]
  · intro h
    show (if (calculate inputs).numberOfSales > 0 then
      inputs.adCost / (calculate inputs).numberOfSales else 0) = 0
    rw [if_neg (not_lt.mpr h)]
  · intro h
    show (if inputs.adCost > 0 then
      inputs.adCost * inputs.roas / 100 / inputs.adCost * 100 else 0) = 0
    rw [if_neg (not_lt.mpr h)]
  · intro h
    show (if inputs.seatCpa > 0 then inputs.adCost / inputs.seatCpa else 0) = 0
    rw [if_neg (not_lt.mpr h)]
  · intro h
    show (if inputs.operationDays > 0 then
      inputs.adCost / inputs.operationDays else 0) = 0
    rw [if_neg (not_lt.mpr h)]

theorem C4_saturating_division_witness :
    (calculate degenerateInputs).numberOfSales = 0 ∧
    (calculate degenerateInputs).cpa = 0 ∧
    (calculate degenerateInputs).roasActual = 0 ∧
    (calculate degenerateInputs).seatCount = 0 ∧
    (calculate degenerateInputs).dailyCost = 0 := by
  have h := C4_saturating_division degenerateInputs
  have hns := h.1 le_rfl
  exact ⟨hns, h.2.1 (le_of_eq hns), h.2.2.1 le_rfl, h.2.2.2.1 le_rfl,
    h.2.2.2.2 le_rfl⟩

/-- C5: Row-count law: when the months field is the non-negative integer
`n`, the projection has exactly `n + 1` rows. -/
theorem C5_row_count (inputs : InputValues) (n : ℕ)
    (hn : inputs.months = (n : ℚ)) :
    (project inputs).length = n + 1 := by
  rw [project_length, hn, loopCount_natCast]

theorem C5_row_count_witness :
    (project {defaultInputs with months := 0}).length = 0 + 1 :=
  C5_row_count {defaultInputs with months := 0} 0 (by norm_num)

/-- C6: Sentinel law: whenever `months ≥ 0`, row 0 of the projection has
month 0, all flow and cumulative fields 0, and ad cost equal to the input
baseline ad cost. -/
theorem C6_sentinel_law (inputs : InputValues) (h : 0 ≤ inputs.months) :
    (project inputs).get? 0 = some ⟨0, inputs.adCost, 0, 0, 0, 0, 0⟩ := by
  rw [project_get? inputs 0 ((lt_loopCount_iff inputs.months 0).mpr
    (by exact_mod_cast h)), rowAt_zero]

theorem C6_sentinel_law_witness :
    (project defaultInputs).get? 0 =
      some ⟨0, defaultInputs.adCost, 0, 0, 0, 0, 0⟩ :=
  C6_sentinel_law defaultInputs (by norm_num [defaultInputs])

/-- C7: Per-month row formulas: every emitted row of month `m ≥ 1` satisfies
`revenue = adCost * roas / 100` and
`profit = revenue * (profitMargin/100) * (1 - affiliateCommission/100)`;
and on the default inputs rows 1 and 2 take the claimed concrete values. -/
theorem C7_row_formulas :
    (∀ (inputs : InputValues) (n m : ℕ), inputs.months = (n : ℚ) →
      1 ≤ m → m ≤ n →
      ∃ row, (project inputs).get? m = some row ∧
        row.revenue = row.adCost * inputs.roas / 100 ∧
        row.profit = row.revenue * (inputs.profitMargin / 100) *
          (1 - inputs.affiliateCommission / 100)) ∧
    (project defaultInputs).get? 1 =
      some ⟨1, 500000, 1500000, 720000, 0, 1500000, 720000⟩ ∧
    (project defaultInputs).get? 2 =
      some ⟨2, 720000, 2160000, 1036800, 720000, 3660000, 1036800⟩ := by
  refine ⟨?_, project_defaultInputs_one, project_defaultInputs_two⟩
  intro inputs n m hn h1 hmn
  have hcount : loopCount inputs.months = n + 1 := by
    rw [hn]; exact loopCount_natCast n
  obtain ⟨j, rfl⟩ : ∃ j, m = j + 1 := ⟨m - 1, by omega⟩
  refine ⟨rowAt inputs (j + 1), project_get? inputs (j + 1) (by omega), ?_, ?_⟩
  · rw [rowAt_succ_revenue, rowAt_succ_adCost]
  · rw [rowAt_succ_profit, rowAt_succ_revenue]
    ring

theorem C7_row_formulas_witness :
    ∃ row, (project defaultInputs).get? 1 = some row ∧
      row.revenue = row.adCost * defaultInputs.roas / 100 ∧
      row.profit = row.revenue * (defaultInputs.profitMargin / 100) *
        (1 - defaultInputs.affiliateCommission / 100) :=
  C7_row_formulas.1 defaultInputs 12 1 (by norm_num [defaultInputs])
    (by norm_num) (by norm_num)

/-- C8: Dead-field noninterference: two input snapshots that agree on every
field except possibly `conversionRate` and `appointments` produce the same
single-period result and the same projection sequence. -/
theorem C8_dead_field_noninterference (a b : InputValues)
    (h1 : a.adCost = b.adCost) (h2 : a.productPrice = b.productPrice)
    (h3 : a.roas = b.roas) (h4 : a.profitMargin = b.profitMargin)
    (h5 : a.affiliateCommission = b.affiliateCommission)
    (h6 : a.seatCpa = b.seatCpa) (h7 : a.operationDays = b.operationDays)
    (h8 : a.months = b.months) (h9 : a.firstMonthFree = b.firstMonthFree) :
    calculate a = calculate b ∧ project a = project b := by
  obtain ⟨a1, a2, a3, a4, a5, a6, a7, a8, a9, a10, a11⟩ := a
  obtain ⟨b1, b2, b3, b4, b5, b6, b7, b8, b9, b10, b11⟩ := b
  simp only at h1 h2 h3 h4 h5 h6 h7 h8 h9
  subst h1 h2 h3 h4 h5 h6 h7 h8 h9
  exact ⟨rfl,
    projectAux_dead_fields a1 a2 a3 a4 a5 a6 a7 a8 a9 a10 a11 b4 b8
      (loopCount a10) 0 (initState ⟨a1, a2, a3, a4, a5, a6, a7, a8, a9, a10, a11⟩)⟩

theorem C8_dead_field_noninterference_witness :
    calculate defaultInputs =
      calculate {defaultInputs with conversionRate := 99, appointments := 0} ∧
    project defaultInputs =
      project {defaultInputs with conversionRate := 99, appointments := 0} :=
  C8_dead_field_noninterference defaultInputs
    {defaultInputs with conversionRate := 99, appointments := 0}
    rfl rfl rfl rfl rfl rfl rfl rfl rfl

/-- C9: Cumulative-consistency invariant: every row of the projection, for
every input snapshot and either setting of `firstMonthFree`, satisfies
`cumulativeProfit = cumulativeRevenue * (profitMargin/100) *
(1 - affiliateCommission/100) - cumulativeAdCost`. -/
theorem C9_cumulative_consistency (inputs : InputValues) (m : ℕ)
    (row : CompoundDataItem) (h : (project inputs).get? m = some row) :
    row.cumulativeProfit =
      row.cumulativeRevenue * (inputs.profitMargin / 100) *
        (1 - inputs.affiliateCommission / 100) - row.cumulativeAdCost := by
  have hrow := project_get?_eq_some inputs m row h
  subst hrow
  rcases m with _ | j
  · show (0 : ℚ) = 0 * (inputs.profitMargin / 100) *
      (1 - inputs.affiliateCommission / 100) - 0
    ring
  · rw [rowAt_succ_cumulativeProfit, rowAt_succ_cumulativeRevenue,
      rowAt_succ_cumulativeAdCost]
    exact stateAfter_cumulative_consistency inputs (j + 1)

theorem C9_cumulative_consistency_witness :
    (⟨1, 500000, 1500000, 720000, 0, 1500000, 720000⟩ :
        CompoundDataItem).cumulativeProfit =
      (⟨1, 500000, 1500000, 720000, 0, 1500000, 720000⟩ :
          CompoundDataItem).cumulativeRevenue *
          (defaultInputs.profitMargin / 100) *
          (1 - defaultInputs.affiliateCommission / 100) -
        (⟨1, 500000, 1500000, 720000, 0, 1500000, 720000⟩ :
            CompoundDataItem).cumulativeAdCost :=
  C9_cumulative_consistency defaultInputs 1 _ project_defaultInputs_one

/-- C10: Out-of-contract months edge: with `months < 0` the projection is
the empty sequence (not even the sentinel row); with `months ≥ 0` it has
`⌊months⌋ + 1` rows; and in general index `m` is populated exactly when the
loop condition `m ≤ months` holds. -/
theorem C10_months_edge (inputs : InputValues) :
    (inputs.months < 0 → project inputs = []) ∧
    (0 ≤ inputs.months →
      (project inputs).length = (⌊inputs.months⌋).toNat + 1) ∧
    (∀ m : ℕ, m < (project inputs).length ↔ (m : ℚ) ≤ inputs.months) := by
  refine ⟨?_, ?_, ?_⟩
  · intro h
    have hc : loopCount inputs.months = 0 := by
      unfold loopCount
      rw [if_neg (not_le.mpr h)]
    unfold project calculateCompoundEffect
    rw [hc]
    rfl
  · intro h
    rw [project_length]
    unfold loopCount
    rw [if_pos h]
  · intro m
    rw [project_length]
    exact lt_loopCount_iff inputs.months m

theorem C10_months_edge_witness :
    project {defaultInputs with months := -1} = [] ∧
    (project {defaultInputs with months := 5 / 2}).length = 3 := by
  constructor
  · exact (C10_months_edge {defaultInputs with months := -1}).1 (by norm_num)
  · have h := (C10_months_edge {defaultInputs with months := 5 / 2}).2.1
      (by norm_num)
    rw [h]
    have hfl : ⌊(5 / 2 : ℚ)⌋ = 2 := by
      rw [Int.floor_eq_iff]
      norm_num
    show (⌊(5 / 2 : ℚ)⌋).toNat + 1 = 3
    rw [hfl]
    omega

end AdSimulator
